import Mathlib

/-!
Verification of the tool-orchestration / artifact-extraction / report
pipeline of the repository (files `mcp_client.py`, `server.py`,
`simple_langgraph_mcp.py`).

Strings are modelled as `List Char` (Python strings are sequences of
code points).  External collaborators (the LLM planner, MCP tools, the
HTTP clients and the file system) are modelled as explicit parameters:
pure data for their answers, `Except` for calls that may raise.
-/

/-- Apostrophe character (written by code point to keep source literals exact). -/
def apos : Char := Char.ofNat 39

/-- Whitespace in the sense of the Python regex class `\s` and of
`str.strip`, restricted to the ASCII
range (` `, `\t`, `\n`, `\r`, `\x0b`, `\x0c`). -/
def isSpaceCh (c : Char) : Bool :=
  c == ' ' || c == '\t' || c == '\n' || c == '\r' || c == '\x0b' || c == '\x0c'

/-- Strip an expected literal from the front of `s`; `some` of the rest on success. -/
def stripLit : List Char → List Char → Option (List Char)
  | [], s => some s
  | _ :: _, [] => none
  | p :: ps, c :: cs => if p = c then stripLit ps cs else none

/-- Match the regex fragment `https?://` at the front of `s`; returns the
matched scheme text and the remainder.  (The regex first tries the branch
with `s`, then without; both fail exactly when neither literal is present.) -/
def matchScheme (s : List Char) : Option (List Char × List Char) :=
  match stripLit ("https://".toList) s with
  | some r => some (("https://".toList), r)
  | none =>
    match stripLit ("http://".toList) s with
    | some r => some (("http://".toList), r)
    | none => none

/-- Maximal run of non-whitespace characters: the greedy `[^\s]+` (may be empty;
emptiness is rejected by the callers). -/
def takeNonSpace (s : List Char) : List Char :=
  s.takeWhile (fun c => !(isSpaceCh c))

/-- The alternation `\.(?:jpg|jpeg|png|gif)`, tried in the order of the source;
returns the matched dot-extension when `s` starts with one. -/
def extAt (s : List Char) : Option (List Char) :=
  List.find? (fun e => e.isPrefixOf s) [(".jpg".toList), (".jpeg".toList), (".png".toList), (".gif".toList)]

/-- Greedy backtracking of `[^\s]+\.(?:jpg|jpeg|png|gif)` inside the
non-whitespace run `r`: the largest split point `j ≥ 1` at which a
dot-extension matches, together with that extension. -/
def findLastExt (r : List Char) : Option (Nat × List Char) :=
  List.findSome?
    (fun j => if j = 0 then none else (extAt (r.drop j)).map (fun e => (j, e)))
    ((List.range r.length).reverse)

/-- One match attempt, at the start of `s`, of a pattern
`LABEL(https?://[^\s]+)` (patterns 1 and 2 of `nasa_patterns` in
`extract_images_from_text`).  Returns the captured group and the total
number of characters of the whole match. -/
def matchLabeledUrl (label s : List Char) : Option (List Char × Nat) :=
  match stripLit label s with
  | none => none
  | some s1 =>
    match matchScheme s1 with
    | none => none
    | some (sch, s2) =>
      let r := takeNonSpace s2
      if r.isEmpty then none
      else some (sch ++ r, label.length + sch.length + r.length)

/-- One match attempt, at the start of `s`, of a pattern
`LABEL(https?://[^\s]+\.(?:jpg|jpeg|png|gif))` (patterns 3 and 4 of
`nasa_patterns`; pattern 4 has an empty label).  Returns the captured
group and the total number of characters of the whole match. -/
def matchLabeledImgExt (label s : List Char) : Option (List Char × Nat) :=
  match stripLit label s with
  | none => none
  | some s1 =>
    match matchScheme s1 with
    | none => none
    | some (sch, s2) =>
      let r := takeNonSpace s2
      match findLastExt r with
      | none => none
      | some (j, e) =>
        some (sch ++ r.take (j + e.length), label.length + sch.length + j + e.length)

/-- Driver for `re.findall`: try a match at every position, left to right;
after a successful match resume after its end (all four patterns consume
at least one character on success).  The fuel argument is initialised to
the length of the text and only bounds the recursion; it never cuts a
scan short because every step consumes at least one character. -/
def scanFuel (m : List Char → Option (List Char × Nat)) : Nat → List Char → List (List Char)
  | 0, _ => []
  | _ + 1, [] => []
  | fuel + 1, c :: rest =>
    match m (c :: rest) with
    | some (g, n) => g :: scanFuel m fuel ((c :: rest).drop n)
    | none => scanFuel m fuel rest

/-- Model of `re.findall(pattern, text)` for a single-group pattern `m`. -/
def reFindAll (m : List Char → Option (List Char × Nat)) (text : List Char) : List (List Char) :=
  scanFuel m text.length text

/-- Label of `nasa_patterns[0]`. -/
def label1 : List Char := ("🖼️ Image URL: ".toList)

/-- Label of `nasa_patterns[1]`. -/
def label2 : List Char := ("🔭 HD Image: ".toList)

/-- Label of `nasa_patterns[2]`. -/
def label3 : List Char := ("🔗 Image: ".toList)

/-- Pattern `🖼️ Image URL: (https?://[^\s]+)`. -/
def pat1 : List Char → Option (List Char × Nat) := matchLabeledUrl label1

/-- Pattern `🔭 HD Image: (https?://[^\s]+)`. -/
def pat2 : List Char → Option (List Char × Nat) := matchLabeledUrl label2

/-- Pattern `🔗 Image: (https?://[^\s]+\.(?:jpg|jpeg|png|gif))`. -/
def pat3 : List Char → Option (List Char × Nat) := matchLabeledImgExt label3

/-- Pattern `(https?://[^\s]+\.(?:jpg|jpeg|png|gif))`. -/
def pat4 : List Char → Option (List Char × Nat) := matchLabeledImgExt []

/-- The prioritized pattern list `nasa_patterns` of `extract_images_from_text`. -/
def nasa_patterns : List (List Char → Option (List Char × Nat)) :=
  [pat1, pat2, pat3, pat4]

/-- The `seen`-set deduplication loop of `extract_images_from_text`:
keep the first occurrence of each element, drop later recurrences. -/
def dedupSeen (seen : List (List Char)) : List (List Char) → List (List Char)
  | [] => []
  | x :: xs => if x ∈ seen then dedupSeen seen xs else x :: dedupSeen (x :: seen) xs

/-- Function `extract_images_from_text` (`mcp_client.py`): run the four patterns in
priority order over the whole text, concatenating their match lists, then
deduplicate keeping first occurrences. -/
def extract_images_from_text (text : List Char) : List (List Char) :=
  dedupSeen [] (nasa_patterns.foldl (fun images p => images ++ reFindAll p text) [])

/-- The `all_images` accumulation in `save_to_markdown`: per-output
extraction, results concatenated (`all_images.extend(images)`). -/
def all_images (tool_outputs : List (List Char)) : List (List Char) :=
  tool_outputs.foldl (fun acc output => acc ++ extract_images_from_text output) []

/-- Test for the Python substring expression `needle in haystack`. -/
def containsSub (needle : List Char) : List Char → Bool
  | [] => needle.isEmpty
  | c :: rest => needle.isPrefixOf (c :: rest) || containsSub needle rest

/-- Caption heuristic of `save_to_markdown` (substring containment on the URL). -/
def captionOf (img_url : List Char) : List Char :=
  if containsSub ("apod".toList) img_url || containsSub ("astronomy".toList) img_url then
    ("Astronomy Picture".toList)
  else if containsSub ("mars".toList) img_url then ("Mars Rover Photo".toList)
  else ("Image".toList)

/-- One artifact embed of the Images section of `save_to_markdown`. -/
def renderImage (i : Nat) (img_url : List Char) : List Char :=
  ("### ".toList) ++ captionOf img_url ++ [' '] ++ (toString i).toList ++ ("\n\n".toList)
  ++ ("![".toList) ++ captionOf img_url ++ [' '] ++ (toString i).toList ++ ("](".toList)
  ++ img_url ++ (")\n\n".toList)
  ++ ("[Direct Link](".toList) ++ img_url ++ (")\n\n".toList)

/-- The Images section of `save_to_markdown` (present only when images were found). -/
def imagesSection (imgs : List (List Char)) : List Char :=
  if imgs.isEmpty then []
  else ("## Images\n\n".toList)
    ++ ((imgs.enumFrom 1).map (fun p => renderImage p.1 p.2)).flatten

/-- One raw tool output as persisted by `save_to_markdown`: truncated to
2000 characters, with the literal marker appended when it was longer. -/
def renderToolOutput (output : List Char) : List Char :=
  output.take 2000 ++ (if 2000 < output.length then ("\n... (truncated)".toList) else [])

/-- One entry of the Tool Outputs section. -/
def renderToolOutputEntry (i : Nat) (output : List Char) : List Char :=
  ("### Tool Output ".toList) ++ (toString i).toList ++ ("\n\n".toList)
  ++ ("```\n".toList) ++ renderToolOutput output ++ ("\n```\n\n".toList)

/-- The Tool Outputs section of `save_to_markdown` (present only when
`tool_outputs` is non-empty). -/
def toolOutputsSection (tool_outputs : List (List Char)) : List Char :=
  if tool_outputs.isEmpty then []
  else ("## Tool Outputs\n\n".toList)
    ++ ("<details>\n<summary>Click to expand raw tool outputs</summary>\n\n".toList)
    ++ ((tool_outputs.enumFrom 1).map (fun p => renderToolOutputEntry p.1 p.2)).flatten
    ++ ("</details>\n".toList)

/-- The full markdown body built by `save_to_markdown` (`date` is the
second `datetime.now()` rendering). -/
def md_content (date question answer : List Char) (tool_outputs : List (List Char)) : List Char :=
  ("# MCP Query Result\n\n".toList)
  ++ ("**Date:** ".toList) ++ date ++ ("\n\n".toList)
  ++ ("## Question\n\n".toList) ++ question ++ ("\n\n".toList)
  ++ ("## Answer\n\n".toList) ++ answer ++ ("\n\n".toList)
  ++ imagesSection (all_images tool_outputs)
  ++ toolOutputsSection tool_outputs

/-- Python `\w` (word character), ASCII range: alphanumeric or underscore. -/
def isWordCh (c : Char) : Bool := c.isAlphanum || c == '_'

/-- Characters kept by the `re.sub` call of `save_to_markdown` (the class
of word characters, whitespace and hyphen; all others are removed). -/
def keepQuestionCh (c : Char) : Bool := isWordCh c || isSpaceCh c || c == '-'

/-- Python `str.strip()` (whitespace removed from both ends). -/
def pyStrip (l : List Char) : List Char :=
  ((l.dropWhile isSpaceCh).reverse.dropWhile isSpaceCh).reverse

/-- The `safe_question` slug of `save_to_markdown`:
`re.sub(r'[^\w\s-]', '', question)[:50].strip().replace(' ', '_')`. -/
def sanitize_question (question : List Char) : List Char :=
  (pyStrip ((question.filter keepQuestionCh).take 50)).map
    (fun c => if c = ' ' then '_' else c)

/-- The report filename `f"{timestamp}_{safe_question}.md"`. -/
def make_filename (timestamp question : List Char) : List Char :=
  timestamp ++ ('_' :: sanitize_question question) ++ (".md".toList)

/-- A conversation message (role and content), as used by the agent response. -/
inductive Msg where
  | human : List Char → Msg
  | ai : List Char → Msg
  | tool : List Char → Msg
deriving DecidableEq

/-- Content of a message. -/
def Msg.content : Msg → List Char
  | Msg.human c => c
  | Msg.ai c => c
  | Msg.tool c => c

/-- The value returned by `agent.ainvoke` (its `"messages"` list). -/
structure AgentResponse where
  messages : List Msg
deriving DecidableEq

/-- The `tool_outputs` collection loop of `answer_question`: contents of
the `ToolMessage` entries, in order. -/
def toolOutputsOf (resp : AgentResponse) : List (List Char) :=
  resp.messages.filterMap (fun m => match m with | Msg.tool c => some c | _ => none)

/-- The computed final answer `response["messages"][-1].content` (none when
the message list is empty, in which case Python raises `IndexError`). -/
def final_answer_of (resp : AgentResponse) : Option (List Char) :=
  resp.messages.getLast?.map Msg.content

/-- Function `answer_question` (`mcp_client.py`), with its external collaborators
explicit: `agentResult` is the outcome of `agent.ainvoke` (the planner/LLM
run; `Except.error` when it raises), `writeResult` the outcome of
`filepath.write_text` (`Except.error` when persistence fails), `ts` the
filename timestamp and `date` the header timestamp.  Returns the function
result (`Except.error` models an exception propagating to the caller) and
the list of files written, as (path, content) pairs. -/
def answer_question (agentResult : Except (List Char) AgentResponse)
    (writeResult : Except (List Char) Unit) (ts date question : List Char) :
    Except (List Char) (List Char × List Char) × List (List Char × List Char) :=
  match agentResult with
  | Except.error e => (Except.error e, [])
  | Except.ok resp =>
    match resp.messages.getLast? with
    | none => (Except.error ("IndexError: list index out of range".toList), [])
    | some last =>
      let final_answer := last.content
      let filepath := ("outputs/".toList) ++ make_filename ts question
      let content := md_content date question final_answer (toolOutputsOf resp)
      match writeResult with
      | Except.error e => (Except.error e, [])
      | Except.ok _ => (Except.ok (final_answer, filepath), [(filepath, content)])

/-- A NewsAPI article, as read from the JSON response (`title`, optional
`description`, `url`, `publishedAt`). -/
structure Article where
  title : List Char
  description : Option (List Char)
  url : List Char
  publishedAt : List Char

/-- The parsed NewsAPI JSON body: `status`, `totalResults`, `articles`. -/
structure NewsData where
  status : List Char
  totalResults : Nat
  articles : List Article

/-- The error string returned by both news tools when `NEWS_API_KEY` is unset. -/
def NEWS_KEY_ERROR : List Char :=
  ("Error: NEWS_API_KEY not found in environment variables. Please add it to your .env file.".toList)

/-- One formatted headline of `get_top_headlines`. -/
def formatHeadline (a : Article) : List Char :=
  ("📰 ".toList) ++ a.title ++ ("\n   ".toList)
  ++ (a.description.getD ("No description".toList))
  ++ ("\n   🔗 ".toList) ++ a.url

/-- Tool `get_top_headlines` (`server.py`): `newsKey` is `NEWS_API_KEY` (none =
unset/empty, i.e. falsy), `fetch` the outcome of the HTTP request + JSON
parse (`Except.error` carries the `RequestException` text).  `country`,
`category` and `query` only shape the request parameters, which the
`fetch` collaborator already accounts for. -/
def get_top_headlines (newsKey : Option (List Char))
    (fetch : Except (List Char) NewsData)
    (country : List Char) (category : Option (List Char)) (query : Option (List Char)) :
    List Char :=
  match newsKey with
  | none => NEWS_KEY_ERROR
  | some _ =>
    match fetch with
    | Except.error e => ("Error fetching news: ".toList) ++ e
    | Except.ok data =>
      if data.status = ("ok".toList) ∧ 0 < data.totalResults then
        List.intercalate ("\n\n".toList) ((data.articles.take 5).map formatHeadline)
      else ("No news articles found for the specified criteria.".toList)

/-- One formatted article of `search_news`. -/
def formatNewsArticle (a : Article) : List Char :=
  ("📰 ".toList) ++ a.title ++ ("\n   📅 ".toList) ++ a.publishedAt.take 10
  ++ ("\n   ".toList) ++ (a.description.getD ("No description".toList))
  ++ ("\n   🔗 ".toList) ++ a.url

/-- Tool `search_news` (`server.py`); same collaborator conventions as
`get_top_headlines`. -/
def search_news (newsKey : Option (List Char))
    (fetch : Except (List Char) NewsData) (query : List Char) : List Char :=
  match newsKey with
  | none => NEWS_KEY_ERROR
  | some _ =>
    match fetch with
    | Except.error e => ("Error searching news: ".toList) ++ e
    | Except.ok data =>
      if data.status = ("ok".toList) ∧ 0 < data.totalResults then
        List.intercalate ("\n\n".toList) ((data.articles.take 5).map formatNewsArticle)
      else ("No news articles found for ".toList) ++ [apos] ++ query ++ [apos] ++ (".".toList)

/-- One Tavily search result (`title`, `content`, `url` keys, all optional). -/
structure SearchResult where
  title : Option (List Char)
  content : Option (List Char)
  url : Option (List Char)

/-- One formatted entry of the result list of `web_search`. -/
def formatSearchResult (i : Nat) (r : SearchResult) : List Char :=
  (toString i).toList ++ (". ".toList) ++ (r.title.getD ("No title".toList))
  ++ ("\n   ".toList) ++ ((r.content.getD ("No description".toList)).take 200)
  ++ ("...".toList) ++ ("\n   🔗 ".toList) ++ (r.url.getD ("No URL".toList))

/-- Tool `web_search` (`server.py`): `searchCall` is the outcome of
`client.search(...)` (the `results` list on success), `getContextCall`
the outcome of the fallback `client.get_search_context(...)`.  The result
is `Except`: `Except.error` models an exception escaping the tool (the
fallback call is outside the protection of the `try` block). -/
def web_search (searchCall : Except (List Char) (List SearchResult))
    (getContextCall : Except (List Char) (List Char)) (query : List Char) :
    Except (List Char) (List Char) :=
  match searchCall with
  | Except.ok results =>
    let formatted := (results.enumFrom 1).map (fun p => formatSearchResult p.1 p.2)
    Except.ok
      (if formatted.isEmpty then ("No results found for: ".toList) ++ query
       else ("Search results for: ".toList) ++ query ++ ("\n\n".toList)
         ++ List.intercalate ("\n\n".toList) formatted)
  | Except.error _ => getContextCall

/-- An MCP tool as seen by `simple_langgraph_mcp.py`: a name and an
invocation capability over an argument mapping. -/
structure SLTool where
  name : List Char
  run : List (List Char × List Char) → List Char

/-- One `tool_call` of an LLM response: tool name and argument mapping. -/
structure ToolCall where
  name : List Char
  args : List (List Char × List Char)

/-- The `State` TypedDict of `simple_langgraph_mcp.py`. -/
structure GraphState where
  messages : List Msg
  nasa_data : List Char
  news_data : List Char
  final_report : List Char

/-- The tool-dispatch loop shared by `get_nasa_data` and `get_news_data`:
for each `tool_call`, find the first tool with that name and, if found,
store its output in the slot (overwriting); unknown names leave the slot
as it was.  Returns the final slot value. -/
def runToolCalls (tools : List SLTool) (calls : List ToolCall) (slot : List Char) : List Char :=
  calls.foldl
    (fun acc call =>
      match tools.find? (fun t => t.name == call.name) with
      | some t => t.run call.args
      | none => acc)
    slot

/-- The sequence of values assigned to the slot by the dispatch loop, one
entry per `tool_call` whose name matches a tool (each such iteration
executes one `state[...] = str(result)` assignment). -/
def runToolCallsWrites (tools : List SLTool) (calls : List ToolCall) : List (List Char) :=
  calls.filterMap
    (fun call => (tools.find? (fun t => t.name == call.name)).map (fun t => t.run call.args))

/-- The prompt content appended to `messages` by `get_nasa_data`. -/
def nasaPromptMsg : List Char :=
  ("Get today".toList) ++ [apos] ++ ("s astronomy picture of the day".toList)

/-- Node `get_nasa_data`: appends its prompt to the conversation, then
dispatches the `tool_calls` of the planner (the `calls` parameter: the
`response.tool_calls` returned by the external LLM), storing outputs in
the `nasa_data` slot. -/
def get_nasa_data (tools : List SLTool) (calls : List ToolCall) (s : GraphState) : GraphState :=
  { s with
    messages := s.messages ++ [Msg.human nasaPromptMsg]
    nasa_data := runToolCalls tools calls s.nasa_data }

/-- Node `get_news_data`: builds a fresh local message list (the shared
conversation is untouched) and dispatches the `tool_calls` of the planner into
the `news_data` slot. -/
def get_news_data (tools : List SLTool) (calls : List ToolCall) (s : GraphState) : GraphState :=
  { s with news_data := runToolCalls tools calls s.news_data }

/-- The summarization prompt of `create_report`, built from the two slots. -/
def reportPrompt (nasa news : List Char) : List Char :=
  ("\n    Based on the following data, create a brief space update report:\n    \n    NASA Data: ".toList)
  ++ nasa
  ++ ("\n    \n    News Data: ".toList)
  ++ news
  ++ ("\n    \n    Create a concise, engaging summary of today".toList)
  ++ [apos] ++ ("s space highlights.\n    ".toList)

/-- Node `create_report`: the external LLM (`llm` parameter) summarizes the
two slots into `final_report`. -/
def create_report (llm : List Char → List Char) (s : GraphState) : GraphState :=
  { s with final_report := llm (reportPrompt s.nasa_data s.news_data) }

/-- The compiled linear workflow `get_nasa → get_news → create_report → END`
of `create_workflow`, with the per-node planner decisions (`nasaCalls`,
`newsCalls`) and the summarizing LLM as external parameters. -/
def workflow (tools : List SLTool) (nasaCalls newsCalls : List ToolCall)
    (llm : List Char → List Char) (s0 : GraphState) : GraphState :=
  create_report llm (get_news_data tools newsCalls (get_nasa_data tools nasaCalls s0))

/-- Modelled from the spec: the sanitization rule exactly as claim C8 words
it (for comparison with the `sanitize_question` of the source): characters
outside alphanumerics/whitespace/hyphen stripped, whitespace collapsed to
underscores, length capped at the 50-character bound.  The auxiliary
Boolean records whether the previous character was whitespace, so that a
whitespace run collapses to a single underscore. -/
def collapseWsAux : Bool → List Char → List Char
  | _, [] => []
  | prevWs, c :: cs =>
    if isSpaceCh c then
      (if prevWs then collapseWsAux true cs else '_' :: collapseWsAux true cs)
    else c :: collapseWsAux false cs

/-- Modelled from the spec: the slug rule of claim C8 (see `collapseWsAux`). -/
def claimSlug (question : List Char) : List Char :=
  (collapseWsAux false
    (question.filter (fun c => c.isAlphanum || isSpaceCh c || c == '-'))).take 50

/-- Modelled from the spec: the filename produced by the rule of claim C8. -/
def claimFilename (timestamp question : List Char) : List Char :=
  timestamp ++ ('_' :: claimSlug question) ++ (".md".toList)

theorem stripLit_eq : ∀ p s r : List Char, stripLit p s = some r → s = p ++ r := by
  intro p
  induction p with
  | nil =>
    intro s r h
    simp [stripLit] at h
    simp [h]
  | cons a as ih =>
    intro s r h
    cases s with
    | nil => simp [stripLit] at h
    | cons c cs =>
      simp only [stripLit] at h
      split at h
      · rename_i hac
        have := ih cs r h
        simp [hac, this]
      · exact absurd h (by simp)

theorem matchScheme_eq {s sch r : List Char} (h : matchScheme s = some (sch, r)) :
    s = sch ++ r := by
  unfold matchScheme at h
  cases h1 : stripLit (("https://").toList) s with
  | some t =>
    rw [h1] at h
    injection h with h
    injection h with hsch hr
    subst hsch; subst hr
    exact stripLit_eq _ _ _ h1
  | none =>
    rw [h1] at h
    cases h2 : stripLit (("http://").toList) s with
    | some t =>
      rw [h2] at h
      injection h with h
      injection h with hsch hr
      subst hsch; subst hr
      exact stripLit_eq _ _ _ h2
    | none =>
      rw [h2] at h
      exact absurd h (by simp)

theorem matchLabeledUrl_sub {label s g : List Char} {n : Nat}
    (h : matchLabeledUrl label s = some (g, n)) : g <:+: s := by
  simp only [matchLabeledUrl] at h
  split at h
  · exact absurd h (by simp)
  · rename_i s1 h0
    split at h
    · exact absurd h (by simp)
    · rename_i sch s2 h1
      split at h
      · exact absurd h (by simp)
      · injection h with h
        injection h with hg hn
        subst hg
        have hpre : takeNonSpace s2 <+: s2 := List.takeWhile_prefix _
        obtain ⟨t, ht⟩ := hpre
        refine ⟨label, t, ?_⟩
        have hs : s = label ++ (sch ++ s2) := by
          rw [stripLit_eq _ _ _ h0, matchScheme_eq h1]
        rw [hs, List.append_assoc]
        congr 1
        rw [List.append_assoc]
        congr 1

theorem matchLabeledImgExt_sub {label s g : List Char} {n : Nat}
    (h : matchLabeledImgExt label s = some (g, n)) : g <:+: s := by
  simp only [matchLabeledImgExt] at h
  split at h
  · exact absurd h (by simp)
  · rename_i s1 h0
    split at h
    · exact absurd h (by simp)
    · rename_i sch s2 h1
      split at h
      · exact absurd h (by simp)
      · rename_i j e h2
        injection h with h
        injection h with hg hn
        subst hg
        have hpre : takeNonSpace s2 <+: s2 := List.takeWhile_prefix _
        obtain ⟨t, ht⟩ := hpre
        have hpre2 : (takeNonSpace s2).take (j + e.length) <+: takeNonSpace s2 :=
          List.take_prefix _ _
        obtain ⟨t2, ht2⟩ := hpre2
        refine ⟨label, t2 ++ t, ?_⟩
        have hs : s = label ++ (sch ++ s2) := by
          rw [stripLit_eq _ _ _ h0, matchScheme_eq h1]
        rw [hs, List.append_assoc]
        congr 1
        rw [List.append_assoc]
        congr 1
        rw [← List.append_assoc, ht2]
        exact ht

theorem mem_scanFuel_sub {m : List Char → Option (List Char × Nat)}
    (hm : ∀ s g n, m s = some (g, n) → g <:+: s) :
    ∀ fuel s g, g ∈ scanFuel m fuel s → g <:+: s := by
  intro fuel
  induction fuel with
  | zero => intro s g h; simp [scanFuel] at h
  | succ fuel ih =>
    intro s g h
    cases s with
    | nil => simp [scanFuel] at h
    | cons c rest =>
      simp only [scanFuel] at h
      cases hmc : m (c :: rest) with
      | some p =>
        obtain ⟨g0, n⟩ := p
        rw [hmc] at h
        rcases List.mem_cons.mp h with h | h
        · subst h; exact hm _ _ _ hmc
        · exact (ih _ _ h).trans (List.drop_suffix n (c :: rest)).isInfix
      | none =>
        rw [hmc] at h
        exact (ih _ _ h).trans (List.suffix_cons c rest).isInfix

theorem nasa_patterns_sub :
    ∀ p ∈ nasa_patterns, ∀ s g n, p s = some (g, n) → g <:+: s := by
  intro p hp
  simp only [nasa_patterns, List.mem_cons, List.not_mem_nil, or_false] at hp
  rcases hp with h | h | h | h <;> subst h
  · exact fun s g n h => matchLabeledUrl_sub h
  · exact fun s g n h => matchLabeledUrl_sub h
  · exact fun s g n h => matchLabeledImgExt_sub h
  · exact fun s g n h => matchLabeledImgExt_sub h

theorem mem_dedupSeen : ∀ (l seen : List (List Char)) (x : List Char),
    x ∈ dedupSeen seen l → x ∈ l := by
  intro l
  induction l with
  | nil => intro seen x h; simp [dedupSeen] at h
  | cons a as ih =>
    intro seen x h
    simp only [dedupSeen] at h
    split at h
    · exact List.mem_cons_of_mem a (ih seen x h)
    · rcases List.mem_cons.mp h with h | h
      · exact h ▸ List.mem_cons_self a as
      · exact List.mem_cons_of_mem a (ih (a :: seen) x h)

theorem dedupSeen_nodup : ∀ (l seen : List (List Char)),
    (dedupSeen seen l).Nodup ∧ ∀ x ∈ dedupSeen seen l, x ∉ seen := by
  intro l
  induction l with
  | nil => intro seen; simp [dedupSeen]
  | cons a as ih =>
    intro seen
    simp only [dedupSeen]
    split
    · exact ih seen
    · rename_i ha
      obtain ⟨hnd, hns⟩ := ih (a :: seen)
      refine ⟨List.nodup_cons.mpr ⟨?_, hnd⟩, ?_⟩
      · intro hmem
        exact hns a hmem (List.mem_cons_self a seen)
      · intro x hx
        rcases List.mem_cons.mp hx with h | h
        · exact h ▸ ha
        · intro hxs
          exact hns x h (List.mem_cons_of_mem a hxs)

theorem foldl_append_eq {α β : Type} (f : α → List β) :
    ∀ (l : List α) (acc : List β),
      l.foldl (fun a o => a ++ f o) acc = acc ++ (l.map f).flatten := by
  intro l
  induction l with
  | nil => intro acc; simp
  | cons a as ih => intro acc; simp [List.foldl_cons, ih, List.append_assoc]

theorem runToolCalls_eq_writes (tools : List SLTool) :
    ∀ (calls : List ToolCall) (slot : List Char),
      runToolCalls tools calls slot = (runToolCallsWrites tools calls).getLastD slot := by
  intro calls
  induction calls with
  | nil => intro slot; rfl
  | cons c cs ih =>
    intro slot
    cases h : tools.find? (fun t => t.name == c.name) with
    | none =>
      have l1 : runToolCalls tools (c :: cs) slot = runToolCalls tools cs slot := by
        simp [runToolCalls, List.foldl_cons, h]
      have l2 : runToolCallsWrites tools (c :: cs) = runToolCallsWrites tools cs := by
        simp [runToolCallsWrites, List.filterMap_cons, h]
      rw [l1, l2]
      exact ih slot
    | some t =>
      have l1 : runToolCalls tools (c :: cs) slot = runToolCalls tools cs (t.run c.args) := by
        simp [runToolCalls, List.foldl_cons, h]
      have l2 : runToolCallsWrites tools (c :: cs)
          = t.run c.args :: runToolCallsWrites tools cs := by
        simp [runToolCallsWrites, List.filterMap_cons, h]
      rw [l1, l2, List.getLastD_cons]
      exact ih (t.run c.args)

theorem pyStrip_length_le (l : List Char) : (pyStrip l).length ≤ l.length := by
  unfold pyStrip
  have h1 : (l.dropWhile isSpaceCh).length ≤ l.length :=
    (List.dropWhile_suffix isSpaceCh).length_le
  have h2 : ((l.dropWhile isSpaceCh).reverse.dropWhile isSpaceCh).length
      ≤ (l.dropWhile isSpaceCh).reverse.length :=
    (List.dropWhile_suffix isSpaceCh).length_le
  simp only [List.length_reverse] at h2 ⊢
  omega

/-- Duplicate-URL text used by the C1 counterexample. -/
def dupText : List Char := ("x https://a.com/p.jpg".toList)

/-- Claim C1 counterexample: the same URL in two different tool outputs is
extracted twice by the `all_images` accumulation of `save_to_markdown` —
the seen-set of `extract_images_from_text` lives inside the extraction of
one output, so no deduplication happens across outputs and the claimed
"exactly one ArtifactReference per URL over the whole list" fails. -/
theorem C1_counterexample :
    (all_images [dupText, dupText]).count (("https://a.com/p.jpg").toList) = 2 := by
  decide

/-- Claim C1 amended: deduplication is per output, not across the whole
extraction call.  Within the extraction of one output every URL appears at most
once (the list is duplicate-free), and the list-level accumulation is the
plain concatenation of the per-output extractions, so a URL occurring in
several outputs yields one reference per containing output. -/
theorem C1_amended :
    (∀ t : List Char, (extract_images_from_text t).Nodup) ∧
    (∀ outs : List (List Char),
      all_images outs = (outs.map extract_images_from_text).flatten) := by
  constructor
  · intro t
    exact (dedupSeen_nodup _ []).1
  · intro outs
    have h := foldl_append_eq extract_images_from_text outs []
    simp only [List.nil_append] at h
    exact h

/-- Claim C6: every URL produced by the artifact extraction over a list of
tool outputs appears verbatim (as an exact contiguous substring) inside at
least one entry of that list; the extraction reads only the captured
outputs. -/
theorem C6_theorem (outs : List (List Char)) (url : List Char)
    (h : url ∈ all_images outs) : ∃ o ∈ outs, url <:+: o := by
  have hall : all_images outs = (outs.map extract_images_from_text).flatten := by
    have h2 := foldl_append_eq extract_images_from_text outs []
    simp only [List.nil_append] at h2
    exact h2
  rw [hall] at h
  obtain ⟨l, hl, hul⟩ := List.mem_flatten.mp h
  obtain ⟨o, ho, rfl⟩ := List.mem_map.mp hl
  refine ⟨o, ho, ?_⟩
  have hraw : url ∈ nasa_patterns.foldl (fun images p => images ++ reFindAll p o) [] :=
    mem_dedupSeen _ _ _ hul
  have hfold := foldl_append_eq (fun p => reFindAll p o) nasa_patterns []
  simp only [List.nil_append] at hfold
  rw [hfold] at hraw
  obtain ⟨l2, hl2, hul2⟩ := List.mem_flatten.mp hraw
  obtain ⟨p, hp, rfl⟩ := List.mem_map.mp hl2
  exact mem_scanFuel_sub (nasa_patterns_sub p hp) _ _ _ hul2

/-- Claim C6 witness: the APOD URL extracted from a concrete labeled output
is a substring of that output. -/
theorem C6_witness :
    ∃ o ∈ [("b ".toList) ++ label1 ++ ("https://apod.nasa.gov/x.jpg".toList)],
      ("https://apod.nasa.gov/x.jpg".toList) <:+: o :=
  C6_theorem _ _ (by decide)

/-- Claim C7: a persisted tool output of length at most 2000 appears
byte-identical in the report entry; a longer one is rendered as exactly its
first 2000 characters followed by the literal truncation marker. -/
theorem C7_theorem (output : List Char) :
    (output.length ≤ 2000 → renderToolOutput output = output) ∧
    (2000 < output.length →
      renderToolOutput output = output.take 2000 ++ ("\n... (truncated)".toList) ∧
      (output.take 2000).length = 2000) := by
  constructor
  · intro h
    unfold renderToolOutput
    rw [if_neg (by omega), List.take_of_length_le h]
    simp
  · intro h
    unfold renderToolOutput
    rw [if_pos h]
    exact ⟨rfl, by rw [List.length_take]; omega⟩

/-- Claim C7 witness: a short output is kept verbatim; a 2001-character
output is truncated to its first 2000 characters plus the marker. -/
theorem C7_witness :
    renderToolOutput ("hi".toList) = ("hi".toList) ∧
    renderToolOutput (List.replicate 2001 'a')
      = (List.replicate 2001 'a').take 2000 ++ ("\n... (truncated)".toList) :=
  ⟨(C7_theorem _).1 (by decide), ((C7_theorem _).2 (by rw [List.length_replicate]; omega)).1⟩

/-- Generic-pattern URL of the C10 example text (it occurs first in the text). -/
def urlB10 : List Char := ("https://b.com/a.png".toList)

/-- Labeled-pattern URL of the C10 example text (it occurs last in the text). -/
def urlA10 : List Char := ("https://a.com/z".toList)

/-- C10 example text: a generic image-extension URL at position 0, then the
labeled `Image URL:` pattern with a different URL. -/
def t10 : List Char := urlB10 ++ (' ' :: label1) ++ urlA10

/-- Claim C10: within one text the extraction emits all matches of pattern 1,
then of pattern 2, then 3, then the generic pattern 4, with only the
first-occurrence deduplication applied to the concatenation — and this
ordering is by pattern priority, not text position: in the example text the
generic-pattern URL starts at position 0 yet is emitted after the labeled
URL that occurs at the end of the text. -/
theorem C10_theorem :
    (∀ t : List Char,
      extract_images_from_text t =
        dedupSeen []
          (reFindAll pat1 t ++ reFindAll pat2 t ++ reFindAll pat3 t ++ reFindAll pat4 t)) ∧
    extract_images_from_text t10 = [urlA10, urlB10] ∧
    t10 = urlB10 ++ (' ' :: label1) ++ urlA10 := by
  refine ⟨?_, by decide, rfl⟩
  intro t
  unfold extract_images_from_text nasa_patterns
  simp [List.foldl_cons, List.append_assoc]

/-- The question of the concrete C8 scenario: the word What, an apostrophe,
then the letter s, a space, and the word up with a question mark. -/
def whatsUpQuestion : List Char := ("What".toList) ++ [apos] ++ ("s up?".toList)

/-- Claim C8 counterexample: the slug of the code keeps underscores (claim says
characters outside alphanumerics/whitespace/hyphen are stripped) and maps
each space to its own underscore (claim says whitespace is collapsed), so
on the questions `a_b` and `a  b` the filename of the code differs from the
filename produced by the sanitization rule of the claim. -/
theorem C8_counterexample :
    make_filename ("20240101_120000".toList) ("a_b".toList)
      = ("20240101_120000_a_b.md".toList) ∧
    claimFilename ("20240101_120000".toList) ("a_b".toList)
      = ("20240101_120000_ab.md".toList) ∧
    make_filename ("20240101_120000".toList) ("a  b".toList)
      = ("20240101_120000_a__b.md".toList) ∧
    claimFilename ("20240101_120000".toList) ("a  b".toList)
      = ("20240101_120000_a_b.md".toList) := by
  decide

/-- Claim C8 amended: the filename is the deterministic concatenation of the
timestamp, an underscore, the sanitized slug and `.md`, where the slug keeps
word characters (alphanumerics and underscore), whitespace and hyphens,
truncates to 50 characters, strips outer whitespace and replaces each space
character by one underscore; the slug is at most 50 characters, contains no
space, and the concrete apostrophe question yields `<timestamp>_Whats_up.md`. -/
theorem C8_amended :
    (∀ ts q : List Char,
      make_filename ts q = ts ++ ('_' :: sanitize_question q) ++ (".md".toList) ∧
      (sanitize_question q).length ≤ 50 ∧
      (sanitize_question q).all (fun c => !(c == ' ')) = true) ∧
    make_filename ("20240101_120000".toList) whatsUpQuestion
      = ("20240101_120000_Whats_up.md".toList) := by
  refine ⟨?_, by decide⟩
  intro ts q
  refine ⟨rfl, ?_, ?_⟩
  · unfold sanitize_question
    rw [List.length_map]
    calc (pyStrip ((q.filter keepQuestionCh).take 50)).length
        ≤ ((q.filter keepQuestionCh).take 50).length := pyStrip_length_le _
      _ ≤ 50 := List.length_take_le _ _
  · unfold sanitize_question
    rw [List.all_map, List.all_eq_true]
    intro c _
    by_cases h : c = ' ' <;> simp [h, Function.comp]

/-- Claim C2: when the planner collaborator raises, `answer_question`
propagates a run-level failure to its caller and writes nothing; and
whatever run writes a file writes exactly one complete report and returns
success — the write is all-or-nothing. -/
theorem C2_theorem :
    (∀ (e : List Char) (w : Except (List Char) Unit) (ts date q : List Char),
      answer_question (Except.error e) w ts date q = (Except.error e, [])) ∧
    (∀ (ar : Except (List Char) AgentResponse) (w : Except (List Char) Unit)
        (ts date q : List Char) (pc : List Char × List Char)
        (rest : List (List Char × List Char)),
      (answer_question ar w ts date q).2 = pc :: rest →
        rest = [] ∧ ∃ a, (answer_question ar w ts date q).1 = Except.ok (a, pc.1)) := by
  constructor
  · intro e w ts date q
    rfl
  · intro ar w ts date q pc rest h
    cases ar with
    | error e => simp [answer_question] at h
    | ok resp =>
      cases hl : resp.messages.getLast? with
      | none => simp [answer_question, hl] at h
      | some last =>
        cases w with
        | error e => simp [answer_question, hl] at h
        | ok u =>
          simp only [answer_question, hl, List.cons.injEq] at h
          obtain ⟨h1, h2⟩ := h
          subst h2
          refine ⟨rfl, last.content, ?_⟩
          simp only [answer_question, hl, ← h1]

/-- Agent response of the C2 witness run: one tool message and a final answer. -/
def respC2 : AgentResponse :=
  ⟨[Msg.human ("q".toList), Msg.tool ("t-out".toList), Msg.ai ("ans".toList)]⟩

/-- Claim C2 witness: a concrete successful run writes its single report and
returns success at the written path. -/
theorem C2_witness :
    ∃ a, (answer_question (Except.ok respC2) (Except.ok ())
        ("ts".toList) ("d".toList) ("q".toList)).1
      = Except.ok (a, ("outputs/".toList) ++ make_filename ("ts".toList) ("q".toList)) :=
  (C2_theorem.2 (Except.ok respC2) (Except.ok ())
    ("ts".toList) ("d".toList) ("q".toList)
    ((("outputs/".toList) ++ make_filename ("ts".toList) ("q".toList)),
      md_content ("d".toList) ("q".toList) ("ans".toList) (toolOutputsOf respC2))
    [] (by rfl)).2

/-- Agent response of the C5 persistence-failure scenario. -/
def respC5 : AgentResponse := ⟨[Msg.ai ("the computed answer".toList)]⟩

/-- Claim C5 counterexample: when persisting the report fails, the failure
propagates out of `answer_question` and the computed answer is not returned
to the caller — even though the answer had been computed from the agent
response. -/
theorem C5_counterexample :
    answer_question (Except.ok respC5) (Except.error ("PermissionError".toList))
        ("ts".toList) ("d".toList) ("q".toList)
      = (Except.error ("PermissionError".toList), []) ∧
    final_answer_of respC5 = some ("the computed answer".toList) :=
  ⟨rfl, rfl⟩

/-- Claim C5 amended: when the report write fails, the caller is told (the
persistence error propagates as the outcome of the run) but the computed answer
is lost — for every non-empty agent response the result of the run is exactly the
write error and nothing is written. -/
theorem C5_amended (m : Msg) (ms : List Msg) (e ts date q : List Char) :
    answer_question (Except.ok ⟨ms ++ [m]⟩) (Except.error e) ts date q
      = (Except.error e, []) := by
  simp [answer_question, List.getLast?_concat]

/-- Tool list of the C3 scenario: a single valid tool. -/
def toolsC3 : List SLTool :=
  [⟨("get_astronomy_picture".toList), fun _ => ("APOD result".toList)⟩]

/-- Tool call of the C3 scenario naming a tool that does not exist. -/
def badCallC3 : ToolCall := ⟨("no_such_tool".toList), []⟩

/-- Tool call of the C3 scenario naming the valid tool. -/
def goodCallC3 : ToolCall := ⟨("get_astronomy_picture".toList), []⟩

/-- Initial state of the C3 scenario. -/
def s0C3 : GraphState := ⟨[], [], [], []⟩

/-- Claim C3 counterexample: a planner result with one request to a
non-existent tool and one to a valid tool leaves the state exactly as if
the bad request had never been issued — only the output of the valid tool is
recorded; no error-text entry for the bad request exists anywhere in the
resulting state. -/
theorem C3_counterexample :
    get_nasa_data toolsC3 [badCallC3, goodCallC3] s0C3
      = get_nasa_data toolsC3 [goodCallC3] s0C3 ∧
    (get_nasa_data toolsC3 [badCallC3, goodCallC3] s0C3).nasa_data
      = ("APOD result".toList) :=
  ⟨rfl, rfl⟩

/-- Claim C3 amended: a request naming a tool absent from the tool list is
silently skipped by the dispatch loop — the step completes and produces the
same state as without that request; no error-text entry is recorded. -/
theorem C3_amended (tools : List SLTool) (s : GraphState) (c : ToolCall)
    (calls : List ToolCall)
    (h : tools.find? (fun t => t.name == c.name) = none) :
    get_nasa_data tools (c :: calls) s = get_nasa_data tools calls s := by
  simp [get_nasa_data, runToolCalls, List.foldl_cons, h]

/-- Claim C3 witness: the concrete unknown-tool request is dropped without a
trace. -/
theorem C3_witness :
    get_nasa_data toolsC3 [badCallC3] s0C3 = get_nasa_data toolsC3 [] s0C3 :=
  C3_amended toolsC3 s0C3 badCallC3 [] (by rfl)

/-- Tool list of the C4 scenario: a tool whose output depends on its arguments. -/
def toolsC4 : List SLTool :=
  [⟨("get_mars_rover_photos".toList),
    fun args => ("photo:".toList) ++ (args.headD (([] : List Char), ([] : List Char))).2⟩]

/-- First tool call of the C4 scenario. -/
def callC4a : ToolCall :=
  ⟨("get_mars_rover_photos".toList), [(("sol".toList), ("100".toList))]⟩

/-- Second tool call of the C4 scenario. -/
def callC4b : ToolCall :=
  ⟨("get_mars_rover_photos".toList), [(("sol".toList), ("200".toList))]⟩

/-- Claim C4 counterexample: a planner response with two valid tool calls
makes the owning step assign its slot twice in one run — the write trace has
two entries and the slot ends at the second value, so the first write is
overwritten, contradicting "written at most once during the run". -/
theorem C4_counterexample :
    runToolCallsWrites toolsC4 [callC4a, callC4b]
      = [("photo:100".toList), ("photo:200".toList)] ∧
    runToolCalls toolsC4 [callC4a, callC4b] [] = ("photo:200".toList) :=
  ⟨rfl, rfl⟩

/-- Claim C4 amended: each slot is owned by one step — after the whole
workflow, `nasa_data` is exactly what the nasa step computed and `news_data`
what the news step computed (later steps never touch them) — but within the
owning step the slot is assigned once per matching tool call, the final
value being the last entry of that write trace (or the initial value when no
call matches). -/
theorem C4_amended (tools : List SLTool) (nasaCalls newsCalls : List ToolCall)
    (llm : List Char → List Char) (s0 : GraphState) :
    (workflow tools nasaCalls newsCalls llm s0).nasa_data
        = runToolCalls tools nasaCalls s0.nasa_data ∧
    (workflow tools nasaCalls newsCalls llm s0).news_data
        = runToolCalls tools newsCalls s0.news_data ∧
    ∀ (calls : List ToolCall) (slot : List Char),
      runToolCalls tools calls slot = (runToolCallsWrites tools calls).getLastD slot :=
  ⟨rfl, rfl, runToolCalls_eq_writes tools⟩

/-- Claim C9 counterexample: with the Tavily key absent both client calls
fail; `web_search` has no key check, the `except` branch re-calls the
client, and that failure escapes the tool — an exception, not a descriptive
error string. -/
theorem C9_counterexample :
    web_search (Except.error ("MissingAPIKeyError".toList))
        (Except.error ("MissingAPIKeyError".toList)) ("nebula images".toList)
      = Except.error ("MissingAPIKeyError".toList) :=
  rfl

/-- Claim C9 amended: the two news tools return the descriptive
`NEWS_API_KEY` error string when their key is absent, for every request and
collaborator behaviour; `web_search`, by contrast, propagates the fallback
failure of the fallback call out of the tool whenever both client calls fail (as they do
when the search key is absent). -/
theorem C9_amended :
    (∀ (fetch : Except (List Char) NewsData) (country : List Char)
        (category query : Option (List Char)),
      get_top_headlines none fetch country category query = NEWS_KEY_ERROR) ∧
    (∀ (fetch : Except (List Char) NewsData) (query : List Char),
      search_news none fetch query = NEWS_KEY_ERROR) ∧
    (∀ (q e1 e2 : List Char),
      web_search (Except.error e1) (Except.error e2) q = Except.error e2) :=
  ⟨fun _ _ _ _ => rfl, fun _ _ => rfl, fun _ _ _ => rfl⟩
